import Mathlib

/-!
Verification of the condor-client flight-search core (src/flight_search.py and
src/app.py) against its natural-language specification.

The Python code is shallowly embedded: Elasticsearch documents become the
`FareRecord` structure, the bool query bodies become the `Clause`/`BoolQuery`
types with an executable matching semantics, and the retrieval collaborator
(the Elasticsearch server itself, which is not part of the repository) is
modelled from the spec as filter-sort-truncate over an explicit store.
Fallible code paths (Python `KeyError` on a missing document field) are
embedded in `Except Unit`; a caught `ValueError` becomes an `Option` branch.
Prices are integers in minor units; Python's `round(x / 100, 2)` on them is
embedded as exact rational arithmetic (`round2`), since every value reaching
it is an exact multiple of 1/100.
-/

/-! ## Python string primitives, embedded over character lists

The built-in Lean `String` functions are avoided in favour of structurally
recursive char-list versions so that concrete runs reduce in the kernel.
They model the Python methods used by the source: `str.upper`, `str.strip`,
`str.split(",")` (ASCII inputs: airport codes and digit strings). -/

def upperChar (c : Char) : Char :=
  if 97 ≤ c.toNat ∧ c.toNat ≤ 122 then Char.ofNat (c.toNat - 32) else c

/-- Python `s.upper()` for the ASCII strings this program handles. -/
def pyUpper (s : String) : String :=
  ⟨s.data.map upperChar⟩

def isPySpace (c : Char) : Bool :=
  c == ' ' || c == '\t' || c == '\n' || c == '\r' || c == '\x0b' || c == '\x0c'

def dropSpaces : List Char → List Char
  | [] => []
  | c :: cs => if isPySpace c then dropSpaces cs else c :: cs

/-- Python `s.strip()`: drop leading and trailing whitespace. -/
def pyStrip (s : String) : String :=
  ⟨(dropSpaces ((dropSpaces s.data).reverse)).reverse⟩

def splitAux (sep : Char) : List Char → List Char → List String
  | [], acc => [⟨acc.reverse⟩]
  | c :: cs, acc =>
    if c == sep then ⟨acc.reverse⟩ :: splitAux sep cs []
    else splitAux sep cs (c :: acc)

/-- Python `s.split(sep)` for a one-character separator; `"".split(",") = [""]`. -/
def pySplit (s : String) (sep : Char) : List String :=
  splitAux sep s.data []

/-- The comprehension `[o.strip().upper() for o in s.split(",") if o.strip()]`
used for the destination list and both origin lists. -/
def splitCommaStripUpper (s : String) : List String :=
  (pySplit s ',').filterMap fun o =>
    if pyStrip o = "" then none else some (pyUpper (pyStrip o))

/-- Lexicographic byte order on strings, the order Elasticsearch applies to
`range` filters on the keyword `date` field (`YYYYMMDD`, fixed width). -/
def charListLe : List Char → List Char → Bool
  | [], _ => true
  | _ :: _, [] => false
  | c :: cs, d :: ds =>
    if c.toNat < d.toNat then true
    else if d.toNat < c.toNat then false
    else charListLe cs ds

def strLe (s t : String) : Bool :=
  charListLe s.data t.data

/-! ## Calendar dates: `datetime.strptime(_, "%Y%m%d")` and `strftime` -/

def digitVal (c : Char) : Nat := c.toNat - 48

def isDigitChar (c : Char) : Bool := 48 ≤ c.toNat && c.toNat ≤ 57

def isLeapYear (y : Nat) : Bool :=
  y % 4 == 0 && (y % 100 != 0 || y % 400 == 0)

def daysInMonth (y m : Nat) : Nat :=
  if m = 2 then (if isLeapYear y then 29 else 28)
  else if m = 4 ∨ m = 6 ∨ m = 9 ∨ m = 11 then 30
  else 31

/-- `datetime.strptime(s, "%Y%m%d")`, reduced to the (year, month, day) triple:
eight digits, month 1..12, day 1..days-in-month, year at least `MINYEAR = 1`.
`none` models a raised `ValueError`. -/
def parseYMD (s : String) : Option (Nat × Nat × Nat) :=
  match s.data with
  | [y1, y2, y3, y4, m1, m2, d1, d2] =>
    if [y1, y2, y3, y4, m1, m2, d1, d2].all isDigitChar then
      let y := ((digitVal y1 * 10 + digitVal y2) * 10 + digitVal y3) * 10 + digitVal y4
      let m := digitVal m1 * 10 + digitVal m2
      let d := digitVal d1 * 10 + digitVal d2
      if 1 ≤ y ∧ 1 ≤ m ∧ m ≤ 12 ∧ 1 ≤ d ∧ d ≤ daysInMonth y m then
        some (y, m, d)
      else none
    else none
  | _ => none

def digitChar (n : Nat) : Char := Char.ofNat (48 + n)

def fmt2 (n : Nat) : List Char := [digitChar (n / 10 % 10), digitChar (n % 10)]

/-- `strftime("%Y%m%d")`: zero-padded 4-digit year, 2-digit month and day. -/
def fmtYMD (y m d : Nat) : String :=
  ⟨fmt2 (y / 100) ++ fmt2 y ++ fmt2 m ++ fmt2 d⟩

/-- Strict calendar order on parsed (year, month, day) triples; this is what
`datetime.__lt__` compares after both strings parse. -/
def dateLtB : Nat × Nat × Nat → Nat × Nat × Nat → Bool
  | (y1, m1, d1), (y2, m2, d2) =>
    y1 < y2 || (y1 == y2 && (m1 < m2 || (m1 == m2 && d1 < d2)))

/-- The previous-day snapshot key exactly as the code computes it
(src/flight_search.py lines 128-131 and src/app.py lines 166-169):
`current_dr = strptime(date_retrieved, "%Y%m%d")`, then
`prev_day = current_dr.replace(day=current_dr.day - 1)`, then
`prev_day.strftime("%Y%m%d")`.  `replace` with `day = 0` (a first-of-month
input) raises `ValueError`; `none` models the raised-and-caught error from
either the parse or the replace.  For `day ≥ 2` the decremented day is always
a valid day of the same month, so no upper-bound check arises. -/
def prevDayKey (s : String) : Option String :=
  match parseYMD s with
  | none => none
  | some (y, m, d) => if 1 ≤ d - 1 then some (fmtYMD y m (d - 1)) else none

/-- Modelled from the spec: the intended previous-day computation, which the
repository does not implement ("parse `date_retrieved` as a calendar date,
subtract exactly one day (must correctly roll across month/year boundaries),
format back to `YYYYMMDD`"). -/
def specPrevDay (s : String) : Option String :=
  match parseYMD s with
  | none => none
  | some (y, m, d) =>
    if 2 ≤ d then some (fmtYMD y m (d - 1))
    else if 2 ≤ m then some (fmtYMD y (m - 1) (daysInMonth y (m - 1)))
    else some (fmtYMD (y - 1) 12 31)

/-! ## Money

Fare prices are integers in minor units (hundredths).  Python's
`round(x, 2)` is embedded over `ℚ` as rounding to an integer number of
hundredths; every argument the program passes it is already an exact multiple
of 1/100, where any tie-breaking convention is the identity. -/

def round2 (q : ℚ) : ℚ := ((round (q * 100) : ℤ) : ℚ) / 100

/-! ## The data model: fare records and bool queries -/

/-- The document fields the source reads or filters on (all keyword strings;
`price` is separate because it is numeric and never a filter target). -/
inductive DocField
  | origin
  | destination
  | date
  | date_retrieved
  | ftype
  | direction
deriving DecidableEq, Repr

/-- One Elasticsearch document of the `condor_data` index, restricted to the
fields the source consumes.  The source treats hits as open mappings; `price`
is the one field it ever reads with a default (`doc.get("price", 0)`), so it
is the one field modelled as optional.  `ftype` embeds the `"type"` field. -/
structure FareRecord where
  origin : String
  destination : String
  date : String
  date_retrieved : String
  ftype : String
  direction : String
  price : Option Int
deriving DecidableEq, Repr

def FareRecord.get (r : FareRecord) : DocField → String
  | .origin => r.origin
  | .destination => r.destination
  | .date => r.date
  | .date_retrieved => r.date_retrieved
  | .ftype => r.ftype
  | .direction => r.direction

/-- The query clauses the source emits: `term` (exact match), `terms`
(set membership), and a `range` on the `date` field with optional
`gte`/`lte` bounds. -/
inductive Clause
  | term (field : DocField) (value : String)
  | terms (field : DocField) (values : List String)
  | rangeDate (gte lte : Option String)
deriving DecidableEq, Repr

/-- `{"bool": {"must": [...], "must_not": [...]}}`. -/
structure BoolQuery where
  must : List Clause
  must_not : List Clause
deriving DecidableEq, Repr

/-- Clause satisfaction by one document, per Elasticsearch `term`/`terms`/
`range` semantics on keyword fields (range bounds inclusive, byte order). -/
def Clause.sat (r : FareRecord) : Clause → Bool
  | .term f v => r.get f == v
  | .terms f vs => vs.contains (r.get f)
  | .rangeDate g l =>
    (match g with
     | none => true
     | some lo => strLe lo r.date) &&
    (match l with
     | none => true
     | some hi => strLe r.date hi)

/-- A document matches a bool query when every `must` clause holds and no
`must_not` clause holds; the two groups are conjoined. -/
def matchesQuery (r : FareRecord) (q : BoolQuery) : Bool :=
  q.must.all (fun c => c.sat r) && q.must_not.all (fun c => !(c.sat r))

/-- A `datetime.date` value from the Streamlit date pickers (always truthy in
Python, hence `Option PyDate` with `none` for Python `None`). -/
structure PyDate where
  year : Nat
  month : Nat
  day : Nat
deriving DecidableEq, Repr

def PyDate.strftime (d : PyDate) : String := fmtYMD d.year d.month d.day

/-! ## The retrieval collaborator and the FlightSearch operations

`search_elasticsearch` sends the bool query with `sort: price ascending` and a
`size`; the server itself is outside the repository, so its behaviour is
modelled from the spec: "exposes `search(predicate, sort=[price ascending],
size)` -> ordered list of FareRecord", "ascending-price ordering being honored
exactly", with `term`/`terms`/`range` semantics as in `Clause.sat`.  The store
is an explicit list of documents in index order.  A document without a price
sorts by the same default the formatting layer later applies to it. -/

namespace FlightSearch

/-- Sort key order used by the collaborator model: ascending `price`. -/
def priceLe (a b : FareRecord) : Prop :=
  a.price.getD 0 ≤ b.price.getD 0

instance : DecidableRel priceLe := fun a b =>
  inferInstanceAs (Decidable (a.price.getD 0 ≤ b.price.getD 0))

instance : IsTotal FareRecord priceLe :=
  ⟨fun a b => Int.le_total (a.price.getD 0) (b.price.getD 0)⟩

instance : IsTrans FareRecord priceLe :=
  ⟨fun _ _ _ hab hbc => le_trans hab hbc⟩

/-- `search_elasticsearch(query_body, size)`: matching documents of the index,
price-ascending (stable), truncated to `size`. -/
def search_elasticsearch (store : List FareRecord) (query_body : BoolQuery)
    (size : Nat) : List FareRecord :=
  (List.insertionSort priceLe (store.filter (fun r => matchesQuery r query_body))).take size

/-- `build_base_query` of src/flight_search.py lines 16-71.  Python `None`
for an origin list and an empty list are both falsy and indistinguishable to
the code, so both embed as `[]`; a present-but-empty string is falsy for
`date_retrieved_val` and `concrete_date_val` and is handled explicitly. -/
def build_base_query (destination : String)
    (origin_exclusions origin_codes : List String)
    (flight_type : String)
    (min_date_val max_date_val : Option PyDate)
    (date_retrieved_val concrete_date_val : Option String) : BoolQuery :=
  let destinations := splitCommaStripUpper destination
  let must0 :=
    if destinations.length = 1 then [Clause.term .destination (destinations.headD "")]
    else [Clause.terms .destination destinations]
  let must1 := must0 ++
    (if origin_codes.isEmpty then [] else [Clause.terms .origin origin_codes])
  let must2 := must1 ++ [Clause.term .ftype flight_type]
  let must3 := must2 ++
    (match date_retrieved_val with
     | none => []
     | some s => if s = "" then [] else [Clause.term .date_retrieved s])
  let concrete :=
    match concrete_date_val with
    | none => none
    | some c => if c = "" then none else some c
  let must4 := must3 ++
    (match concrete with
     | some c => [Clause.term .date c]
     | none =>
       let gte := min_date_val.map PyDate.strftime
       let lte := max_date_val.map PyDate.strftime
       if gte.isNone && lte.isNone then [] else [Clause.rangeDate gte lte])
  ⟨must4, if origin_exclusions.isEmpty then [] else [Clause.terms .origin origin_exclusions]⟩

/-- `get_previous_day_price` (src/flight_search.py lines 86-112): a five-term
bool query, `size: 1`, no sort — the first matching document in index order.
`.error ()` models the uncaught `KeyError` of `hits[0]["_source"]["price"]`
when that document has no price field; `.ok none` models no hit. -/
def get_previous_day_price (store : List FareRecord)
    (origin destination flight_date flight_type prev_date_retrieved : String) :
    Except Unit (Option Int) :=
  let query : BoolQuery :=
    ⟨[Clause.term .origin origin, Clause.term .destination destination,
      Clause.term .date flight_date, Clause.term .ftype flight_type,
      Clause.term .date_retrieved prev_date_retrieved], []⟩
  match (store.filter (fun r => matchesQuery r query)).head? with
  | none => .ok none
  | some hit =>
    match hit.price with
    | some p => .ok (some p)
    | none => .error ()

/-- The oneway delta marker: a two-decimal value, or the `"N/A"` sentinel. -/
inductive PriceChange
  | na
  | val (q : ℚ)
deriving DecidableEq, Repr

/-- One formatted output row of `get_oneway_results`. -/
structure OnewayRow where
  origin : String
  destination : String
  date_retrieved : String
  date : String
  price : ℚ
  ftype : String
  price_change_vs_previous_day : PriceChange
deriving DecidableEq, Repr

/-- The loop body of `get_oneway_results` (src/flight_search.py lines
119-151) for one retrieved document.  The `try` block covers the strptime,
the day-decrement and the lookup; only `ValueError` is caught (giving the
`N/A` sentinel), so a `KeyError` escaping `get_previous_day_price`
propagates as `.error`. -/
def onewayRow (store : List FareRecord) (doc : FareRecord) :
    Except Unit OnewayRow :=
  let raw_price : Int := doc.price.getD 0
  let real_price : ℚ := round2 ((raw_price : ℚ) / 100)
  let price_diff : Except Unit (Option ℚ) :=
    match prevDayKey doc.date_retrieved with
    | none => .ok none
    | some k =>
      match get_previous_day_price store doc.origin doc.destination doc.date doc.ftype k with
      | .error e => .error e
      | .ok none => .ok none
      | .ok (some prev) => .ok (some (round2 (((raw_price - prev : Int) : ℚ) / 100)))
  price_diff.map fun pd =>
    { origin := doc.origin
      destination := doc.destination
      date_retrieved := doc.date_retrieved
      date := doc.date
      price := real_price
      ftype := doc.ftype
      price_change_vs_previous_day :=
        match pd with
        | none => .na
        | some q => .val q }

/-- The `for doc in results` loop, stopping at the first uncaught error. -/
def onewayAux (store : List FareRecord) : List FareRecord → Except Unit (List OnewayRow)
  | [] => .ok []
  | doc :: rest =>
    match onewayRow store doc with
    | .error e => .error e
    | .ok row => (onewayAux store rest).map (fun rs => row :: rs)

/-- `get_oneway_results` (src/flight_search.py lines 114-153): retrieve the
100 cheapest matches, then format each row in retrieval order. -/
def get_oneway_results (store : List FareRecord) (base_query : BoolQuery) :
    Except Unit (List OnewayRow) :=
  onewayAux store (search_elasticsearch store base_query 100)

/-- One round-trip pair row. -/
structure PairRow where
  origin : String
  destination : String
  forth_date : String
  back_date : String
  forth_price : ℚ
  back_price : ℚ
  total_price : ℚ
deriving DecidableEq, Repr

/-- The inner body of the nested pairing loop (src/flight_search.py lines
171-191) for one `(f, b)` candidate: `.ok none` means the candidate is
skipped (origin/destination mismatch, a date that fails to parse — the caught
`ValueError` — or a non-increasing date); `.error` models the uncaught
`KeyError` of `f["price"]`/`b["price"]` on a document without a price, which
the code only reaches after all three join conditions hold. -/
def pairOf (f b : FareRecord) : Except Unit (Option PairRow) :=
  if f.origin == b.origin && f.destination == b.destination then
    match parseYMD f.date, parseYMD b.date with
    | some f_date, some b_date =>
      if dateLtB f_date b_date then
        match f.price, b.price with
        | some fp, some bp =>
          .ok (some
            { origin := f.origin
              destination := f.destination
              forth_date := f.date
              back_date := b.date
              forth_price := round2 ((fp : ℚ) / 100)
              back_price := round2 ((bp : ℚ) / 100)
              total_price := round2 (((fp + bp : Int) : ℚ) / 100) })
        | _, _ => .error ()
      else .ok none
    | _, _ => .ok none
  else .ok none

/-- All `(f, b)` candidates in loop order: `for f in set1: for b in set2`. -/
def allPairs (set1 set2 : List FareRecord) : List (FareRecord × FareRecord) :=
  set1.flatMap (fun f => set2.map (fun b => (f, b)))

def formPairsAux : List (FareRecord × FareRecord) → Except Unit (List PairRow)
  | [] => .ok []
  | fb :: rest =>
    match pairOf fb.1 fb.2 with
    | .error e => .error e
    | .ok none => formPairsAux rest
    | .ok (some row) => (formPairsAux rest).map (fun rs => row :: rs)

/-- `pairs.sort(key=lambda x: x["total_price"])` order. -/
def totalPriceLe (a b : PairRow) : Prop :=
  a.total_price ≤ b.total_price

instance : DecidableRel totalPriceLe := fun a b =>
  inferInstanceAs (Decidable (a.total_price ≤ b.total_price))

instance : IsTotal PairRow totalPriceLe :=
  ⟨fun a b => le_total a.total_price b.total_price⟩

instance : IsTrans PairRow totalPriceLe :=
  ⟨fun _ _ _ hab hbc => le_trans hab hbc⟩

/-- `get_roundtrip_results` (src/flight_search.py lines 155-194).  The second
component of the result is the final value of the `base_query` object after
the call: the code appends the direction clauses to `copy.deepcopy`s of
`base_query`, never to `base_query` itself, which the embedding renders by
threading the unchanged value through.  An aliasing implementation (without
the deep copies) would instead return the query with the appended clauses. -/
def get_roundtrip_results (store : List FareRecord) (base_query : BoolQuery) :
    Except Unit (List PairRow) × BoolQuery :=
  let forth_query : BoolQuery :=
    ⟨base_query.must ++ [Clause.term .direction "forth"], base_query.must_not⟩
  let back_query : BoolQuery :=
    ⟨base_query.must ++ [Clause.term .direction "back"], base_query.must_not⟩
  let set1 := search_elasticsearch store forth_query 1000
  let set2 := search_elasticsearch store back_query 1000
  (match formPairsAux (allPairs set1 set2) with
   | .error e => .error e
   | .ok pairs => .ok ((List.insertionSort totalPriceLe pairs).take 100),
   base_query)

end FlightSearch

/-! ## The application layer (src/app.py)

`main` reads the sidebar inputs, validates the destination, builds the query
and dispatches to a display function.  For the claims about validation and
retrieval-call counts, `main_runs` returns `none` when `st.stop()` fires and
otherwise the built query together with the number of search requests the
chosen display function issues: one primary search plus one previous-day
lookup per retrieved row in oneway mode (the lookup is only issued when the
previous-day key computation succeeded), two searches in roundtrip mode. -/

namespace App

/-- `build_base_query` of src/app.py lines 24-83: identical to the
flight_search.py version except that the destination is a single `term`
(no comma-splitting). -/
def build_base_query (destination : String)
    (origin_exclusions origin_codes : List String)
    (flight_type : String)
    (min_date_val max_date_val : Option PyDate)
    (date_retrieved_val concrete_date_val : Option String) : BoolQuery :=
  let must0 := [Clause.term .destination destination]
  let must1 := must0 ++
    (if origin_codes.isEmpty then [] else [Clause.terms .origin origin_codes])
  let must2 := must1 ++ [Clause.term .ftype flight_type]
  let must3 := must2 ++
    (match date_retrieved_val with
     | none => []
     | some s => if s = "" then [] else [Clause.term .date_retrieved s])
  let concrete :=
    match concrete_date_val with
    | none => none
    | some c => if c = "" then none else some c
  let must4 := must3 ++
    (match concrete with
     | some c => [Clause.term .date c]
     | none =>
       let gte := min_date_val.map PyDate.strftime
       let lte := max_date_val.map PyDate.strftime
       if gte.isNone && lte.isNone then [] else [Clause.rangeDate gte lte])
  ⟨must4, if origin_exclusions.isEmpty then [] else [Clause.terms .origin origin_exclusions]⟩

/-- `main` (src/app.py lines 263-326) up to and including its retrieval
traffic: `none` models `st.warning(...); st.stop()` on a blank destination —
reached before any query is built and before any search request.  Otherwise
the pair of the built base query and the number of search requests issued by
the display call. -/
def main_runs (store : List FareRecord)
    (destination exclude_origins_str include_origins_str flight_type : String)
    (min_date_val max_date_val : Option PyDate)
    (date_retrieved_val concrete_date_str : String) :
    Option (BoolQuery × Nat) :=
  let origin_exclusions :=
    if pyStrip exclude_origins_str ≠ "" then splitCommaStripUpper exclude_origins_str else []
  let origin_codes :=
    if pyStrip include_origins_str ≠ "" then splitCommaStripUpper include_origins_str else []
  let concrete_date_val :=
    if pyStrip concrete_date_str ≠ "" then some (pyStrip concrete_date_str) else none
  if pyStrip destination = "" then none
  else
    let base_query := build_base_query (pyUpper destination) origin_exclusions origin_codes
      flight_type min_date_val max_date_val (some date_retrieved_val) concrete_date_val
    if flight_type == "oneway" then
      some (base_query, 1 +
        ((FlightSearch.search_elasticsearch store base_query 100).filter
          (fun doc => (prevDayKey doc.date_retrieved).isSome)).length)
    else
      some (base_query, 2)

/-- Number of search requests of a (possibly stopped) `main` run; a stopped
run issued none. -/
def search_calls : Option (BoolQuery × Nat) → Nat
  | none => 0
  | some x => x.2

end App

/-! ## Claim theorems -/

/-- Claim C1 (code evaluation at the failing input): the code's previous-day
key computation is the naive day-field decrement.  On `"20250301"` it raises
`ValueError` (`replace(day=0)`) instead of producing `"20250228"`: the key is
`none`, while the spec's calendar subtraction gives `"20250228"`.  Mid-month
(`"20250315"`) the two agree. -/
theorem c1_naive_decrement_fails_month_start :
    prevDayKey "20250301" = none ∧
    specPrevDay "20250301" = some "20250228" ∧
    prevDayKey "20250315" = some "20250314" ∧
    specPrevDay "20250315" = some "20250314" := by
  decide

/-- Claim C2 (counterexample): `build_base_query` performs no validation at
all.  Called with an empty destination it does not fail; it returns a normal
predicate whose destination clause is a `terms` filter over the empty list. -/
theorem c2_counterexample :
    FlightSearch.build_base_query "" [] [] "oneway" none none none none =
      ⟨[Clause.terms .destination [], Clause.term .ftype "oneway"], []⟩ := by
  decide

/-- Claim C2 (amended): the blank-destination guard lives in `main`, not in
`build_base_query`; a blank destination stops the run before any query is
built, and zero retrieval calls are performed. -/
theorem c2_blank_destination_zero_retrieval
    (store : List FareRecord)
    (destination exclude_origins_str include_origins_str flight_type : String)
    (min_date_val max_date_val : Option PyDate)
    (date_retrieved_val concrete_date_str : String)
    (hblank : pyStrip destination = "") :
    App.main_runs store destination exclude_origins_str include_origins_str flight_type
        min_date_val max_date_val date_retrieved_val concrete_date_str = none ∧
    App.search_calls (App.main_runs store destination exclude_origins_str include_origins_str
        flight_type min_date_val max_date_val date_retrieved_val concrete_date_str) = 0 := by
  unfold App.main_runs
  rw [if_pos hblank]
  exact ⟨rfl, rfl⟩

/-- Witness for the amended C2 at a concrete whitespace-only destination. -/
theorem c2_witness :
    App.main_runs [] "  " "" "" "oneway" none none "20250101" "" = none ∧
    App.search_calls (App.main_runs [] "  " "" "" "oneway" none none "20250101" "") = 0 :=
  c2_blank_destination_zero_retrieval [] "  " "" "" "oneway" none none "20250101" ""
    (by decide)

/-- Claim C8: an origin in both the inclusion and the exclusion list can never
match — the exclusion sits in `must_not`, which is conjoined with the `must`
group, so the built predicate rejects every record with that origin. -/
theorem c8_exclusion_wins
    (destination : String) (origin_exclusions origin_codes : List String)
    (flight_type : String) (min_date_val max_date_val : Option PyDate)
    (date_retrieved_val concrete_date_val : Option String)
    (r : FareRecord) (o : String)
    (hinc : o ∈ origin_codes) (hexc : o ∈ origin_exclusions)
    (horigin : r.origin = o) :
    matchesQuery r (FlightSearch.build_base_query destination origin_exclusions origin_codes
      flight_type min_date_val max_date_val date_retrieved_val concrete_date_val) = false := by
  cases origin_exclusions with
  | nil => cases hexc
  | cons e es =>
    unfold matchesQuery
    have hmn : (FlightSearch.build_base_query destination (e :: es) origin_codes
        flight_type min_date_val max_date_val date_retrieved_val concrete_date_val).must_not
        = [Clause.terms .origin (e :: es)] := rfl
    rw [hmn]
    have hsat : Clause.sat r (Clause.terms .origin (e :: es)) = true := by
      simp only [Clause.sat, FareRecord.get, horigin]
      exact List.elem_iff.mpr hexc
    simp [hsat]

/-- Witness for C8: `"FRA"` both included and excluded rejects a record from
`FRA`. -/
theorem c8_witness :
    matchesQuery ⟨"FRA", "LPA", "20250310", "20250301", "oneway", "", some 100⟩
      (FlightSearch.build_base_query "LPA" ["FRA"] ["FRA"] "oneway" none none none none)
      = false :=
  c8_exclusion_wins "LPA" ["FRA"] ["FRA"] "oneway" none none none none
    ⟨"FRA", "LPA", "20250310", "20250301", "oneway", "", some 100⟩ "FRA"
    (by decide) (by decide) rfl

/-- Claim C9: `get_roundtrip_results` appends the direction clauses to deep
copies only; the caller's base predicate is returned untouched. -/
theorem c9_roundtrip_preserves_base_query
    (store : List FareRecord) (base_query : BoolQuery) :
    (FlightSearch.get_roundtrip_results store base_query).2 = base_query := rfl

/-- Claim C5: with a (truthy) concrete date, the predicate carries an equality
filter on `date` and the `min_date`/`max_date` bounds are ignored entirely
(the built query does not depend on them and holds no range clause); without
one, an inclusive range is built from whichever bounds are present, and with
neither bound no date-range clause is added. -/
theorem c5_concrete_date_precedence
    (destination : String) (origin_exclusions origin_codes : List String)
    (flight_type : String) (date_retrieved_val : Option String)
    (c : String) (hc : c ≠ "") :
    (∀ min_date_val max_date_val,
      FlightSearch.build_base_query destination origin_exclusions origin_codes flight_type
          min_date_val max_date_val date_retrieved_val (some c)
        = FlightSearch.build_base_query destination origin_exclusions origin_codes flight_type
          none none date_retrieved_val (some c)) ∧
    (∀ min_date_val max_date_val,
      Clause.term .date c ∈ (FlightSearch.build_base_query destination origin_exclusions
        origin_codes flight_type min_date_val max_date_val date_retrieved_val (some c)).must) ∧
    (∀ min_date_val max_date_val gte lte,
      Clause.rangeDate gte lte ∉ (FlightSearch.build_base_query destination origin_exclusions
        origin_codes flight_type min_date_val max_date_val date_retrieved_val (some c)).must) ∧
    (∀ m M, Clause.rangeDate (some m.strftime) (some M.strftime) ∈
      (FlightSearch.build_base_query destination origin_exclusions origin_codes flight_type
        (some m) (some M) date_retrieved_val none).must) ∧
    (∀ m, Clause.rangeDate (some m.strftime) none ∈
      (FlightSearch.build_base_query destination origin_exclusions origin_codes flight_type
        (some m) none date_retrieved_val none).must) ∧
    (∀ M, Clause.rangeDate none (some M.strftime) ∈
      (FlightSearch.build_base_query destination origin_exclusions origin_codes flight_type
        none (some M) date_retrieved_val none).must) ∧
    (∀ gte lte, Clause.rangeDate gte lte ∉ (FlightSearch.build_base_query destination
      origin_exclusions origin_codes flight_type none none date_retrieved_val none).must) := by
  refine ⟨?_, ?_, ?_, ?_, ?_, ?_, ?_⟩
  · intro minD maxD
    simp [FlightSearch.build_base_query, hc]
  · intro minD maxD
    simp [FlightSearch.build_base_query, hc]
  · intro minD maxD gte lte hmem
    simp [FlightSearch.build_base_query, hc] at hmem
    rcases date_retrieved_val with _ | s
    · split_ifs at hmem <;> simp_all
    · split_ifs at hmem <;> simp_all
  · intro m M
    simp [FlightSearch.build_base_query]
  · intro m
    simp [FlightSearch.build_base_query]
  · intro M
    simp [FlightSearch.build_base_query]
  · intro gte lte hmem
    simp [FlightSearch.build_base_query] at hmem
    rcases date_retrieved_val with _ | s
    · split_ifs at hmem <;> simp_all
    · split_ifs at hmem <;> simp_all

/-- Witness for C5 at concrete inputs. -/
theorem c5_witness :
    (∀ min_date_val max_date_val,
      FlightSearch.build_base_query "LPA" [] [] "oneway"
          min_date_val max_date_val none (some "20250310")
        = FlightSearch.build_base_query "LPA" [] [] "oneway"
          none none none (some "20250310")) ∧
    (∀ min_date_val max_date_val,
      Clause.term .date "20250310" ∈ (FlightSearch.build_base_query "LPA" [] [] "oneway"
        min_date_val max_date_val none (some "20250310")).must) ∧
    (∀ min_date_val max_date_val gte lte,
      Clause.rangeDate gte lte ∉ (FlightSearch.build_base_query "LPA" [] [] "oneway"
        min_date_val max_date_val none (some "20250310")).must) ∧
    (∀ m M, Clause.rangeDate (some m.strftime) (some M.strftime) ∈
      (FlightSearch.build_base_query "LPA" [] [] "oneway" (some m) (some M) none none).must) ∧
    (∀ m, Clause.rangeDate (some m.strftime) none ∈
      (FlightSearch.build_base_query "LPA" [] [] "oneway" (some m) none none none).must) ∧
    (∀ M, Clause.rangeDate none (some M.strftime) ∈
      (FlightSearch.build_base_query "LPA" [] [] "oneway" none (some M) none none).must) ∧
    (∀ gte lte, Clause.rangeDate gte lte ∉
      (FlightSearch.build_base_query "LPA" [] [] "oneway" none none none none).must) :=
  c5_concrete_date_precedence "LPA" [] [] "oneway" none "20250310" (by decide)

/-! ## Helper lemmas about money, retrieval and the result assemblers -/

theorem round2_int_div100 (p : ℤ) : round2 ((p : ℚ) / 100) = (p : ℚ) / 100 := by
  unfold round2
  rw [div_mul_cancel₀ _ (by norm_num : (100 : ℚ) ≠ 0), round_intCast]

theorem round2_int_div100_mono {a b : ℤ} (h : a ≤ b) :
    round2 ((a : ℚ) / 100) ≤ round2 ((b : ℚ) / 100) := by
  rw [round2_int_div100, round2_int_div100]
  exact (div_le_div_iff_of_pos_right (by norm_num : (0 : ℚ) < 100)).mpr (by exact_mod_cast h)

theorem search_sorted (store : List FareRecord) (q : BoolQuery) (size : Nat) :
    List.Sorted FlightSearch.priceLe (FlightSearch.search_elasticsearch store q size) :=
  List.Pairwise.sublist (List.take_sublist _ _) (List.sorted_insertionSort _ _)

theorem search_length_le (store : List FareRecord) (q : BoolQuery) (size : Nat) :
    (FlightSearch.search_elasticsearch store q size).length ≤ size := by
  unfold FlightSearch.search_elasticsearch
  exact List.length_take_le _ _

/-- The membership test `r.origin == o && ...` that the five-`term` query of
the previous-day lookup amounts to: same origin, destination, travel date and
type, and the snapshot date equal to the computed previous-day key. -/
def prevMatch (o d fd ft k : String) (r : FareRecord) : Bool :=
  r.origin == o && (r.destination == d && (r.date == fd && (r.ftype == ft &&
    r.date_retrieved == k)))

theorem get_previous_day_price_spec (store : List FareRecord)
    (o d fd ft k : String) :
    FlightSearch.get_previous_day_price store o d fd ft k =
      match (store.filter (prevMatch o d fd ft k)).head? with
      | none => .ok none
      | some hit =>
        match hit.price with
        | some p => .ok (some p)
        | none => .error () := by
  unfold FlightSearch.get_previous_day_price
  have hfilter : store.filter
      (fun r => matchesQuery r ⟨[Clause.term .origin o, Clause.term .destination d,
        Clause.term .date fd, Clause.term .ftype ft, Clause.term .date_retrieved k], []⟩)
      = store.filter (prevMatch o d fd ft k) := by
    apply List.filter_congr
    intro r _
    simp [matchesQuery, Clause.sat, FareRecord.get, prevMatch]
  simp only [hfilter]

theorem onewayAux_ok_spec {store : List FareRecord} {docs : List FareRecord}
    {rows : List FlightSearch.OnewayRow}
    (h : FlightSearch.onewayAux store docs = .ok rows) :
    rows.length = docs.length ∧
    ∀ i (h1 : i < rows.length) (h2 : i < docs.length),
      FlightSearch.onewayRow store (docs.get ⟨i, h2⟩) = .ok (rows.get ⟨i, h1⟩) := by
  induction docs generalizing rows with
  | nil =>
    simp only [FlightSearch.onewayAux] at h
    cases h
    exact ⟨rfl, fun i h1 h2 => absurd h2 (Nat.not_lt_zero i)⟩
  | cons doc rest ih =>
    simp only [FlightSearch.onewayAux] at h
    cases hrow : FlightSearch.onewayRow store doc with
    | error e => rw [hrow] at h; cases h
    | ok row =>
      rw [hrow] at h
      cases haux : FlightSearch.onewayAux store rest with
      | error e => rw [haux] at h; cases h
      | ok rs =>
        rw [haux] at h
        simp only [Except.map] at h
        cases h
        obtain ⟨hlen, hpt⟩ := ih haux
        refine ⟨by simp [hlen], ?_⟩
        intro i h1 h2
        match i with
        | 0 => simpa using hrow
        | i + 1 =>
          simpa using hpt i (by simpa using h1) (by simpa using h2)

theorem onewayRow_ok_spec {store : List FareRecord} {doc : FareRecord}
    {row : FlightSearch.OnewayRow}
    (h : FlightSearch.onewayRow store doc = .ok row) :
    row.origin = doc.origin ∧ row.destination = doc.destination ∧
    row.date_retrieved = doc.date_retrieved ∧ row.date = doc.date ∧
    row.ftype = doc.ftype ∧
    row.price = round2 ((doc.price.getD 0 : ℚ) / 100) ∧
    (prevDayKey doc.date_retrieved = none →
      row.price_change_vs_previous_day = .na) ∧
    (∀ k, prevDayKey doc.date_retrieved = some k →
      (FlightSearch.get_previous_day_price store doc.origin doc.destination doc.date
          doc.ftype k = .ok none →
        row.price_change_vs_previous_day = .na) ∧
      (∀ p, FlightSearch.get_previous_day_price store doc.origin doc.destination doc.date
          doc.ftype k = .ok (some p) →
        row.price_change_vs_previous_day =
          .val (round2 (((doc.price.getD 0 - p : Int) : ℚ) / 100)))) := by
  unfold FlightSearch.onewayRow at h
  cases hk : prevDayKey doc.date_retrieved with
  | none =>
    rw [hk] at h
    simp only [Except.map] at h
    cases h
    refine ⟨rfl, rfl, rfl, rfl, rfl, rfl, fun _ => rfl, ?_⟩
    intro k hk2
    cases hk2
  | some k =>
    rw [hk] at h
    simp only [Except.map] at h
    cases hprev : FlightSearch.get_previous_day_price store doc.origin doc.destination
        doc.date doc.ftype k with
    | error e => rw [hprev] at h; cases h
    | ok po =>
      rw [hprev] at h
      cases po with
      | none =>
        cases h
        refine ⟨rfl, rfl, rfl, rfl, rfl, rfl, fun habs => absurd habs (by simp), ?_⟩
        intro k2 hk2
        cases hk2
        refine ⟨fun _ => rfl, ?_⟩
        intro p hp
        rw [hprev] at hp
        cases hp
      | some prev =>
        cases h
        refine ⟨rfl, rfl, rfl, rfl, rfl, rfl, fun habs => absurd habs (by simp), ?_⟩
        intro k2 hk2
        cases hk2
        refine ⟨?_, ?_⟩
        · intro hnone
          rw [hprev] at hnone
          cases hnone
        · intro p hp
          rw [hprev] at hp
          cases hp
          rfl

/-- Claim C7: a oneway run returns at most 100 rows, row `i` is the formatted
version of retrieved record `i` (order preserved), and since retrieval is
price-ascending the output prices are non-decreasing. -/
theorem c7_oneway_order_and_cap (store : List FareRecord) (q : BoolQuery)
    (rows : List FlightSearch.OnewayRow)
    (h : FlightSearch.get_oneway_results store q = .ok rows) :
    rows.length ≤ 100 ∧
    rows.length = (FlightSearch.search_elasticsearch store q 100).length ∧
    (∀ i (h1 : i < rows.length) (h2 : i < (FlightSearch.search_elasticsearch store q 100).length),
      (rows.get ⟨i, h1⟩).origin
          = ((FlightSearch.search_elasticsearch store q 100).get ⟨i, h2⟩).origin ∧
      (rows.get ⟨i, h1⟩).destination
          = ((FlightSearch.search_elasticsearch store q 100).get ⟨i, h2⟩).destination ∧
      (rows.get ⟨i, h1⟩).date_retrieved
          = ((FlightSearch.search_elasticsearch store q 100).get ⟨i, h2⟩).date_retrieved ∧
      (rows.get ⟨i, h1⟩).date
          = ((FlightSearch.search_elasticsearch store q 100).get ⟨i, h2⟩).date ∧
      (rows.get ⟨i, h1⟩).price
          = round2 (((((FlightSearch.search_elasticsearch store q 100).get ⟨i, h2⟩).price.getD 0 : ℤ) : ℚ) / 100)) ∧
    List.Sorted (fun a b : FlightSearch.OnewayRow => a.price ≤ b.price) rows := by
  unfold FlightSearch.get_oneway_results at h
  obtain ⟨hlen, hpt⟩ := onewayAux_ok_spec h
  refine ⟨hlen ▸ search_length_le store q 100, hlen, ?_, ?_⟩
  · intro i h1 h2
    obtain ⟨ho, hd, hdr, hda, _, hp, _⟩ := onewayRow_ok_spec (hpt i h1 h2)
    exact ⟨ho, hd, hdr, hda, hp⟩
  · rw [List.Sorted, List.pairwise_iff_get]
    intro i j hij
    have h2i : (i : ℕ) < (FlightSearch.search_elasticsearch store q 100).length :=
      hlen ▸ i.isLt
    have h2j : (j : ℕ) < (FlightSearch.search_elasticsearch store q 100).length :=
      hlen ▸ j.isLt
    obtain ⟨_, _, _, _, _, hpi, _⟩ := onewayRow_ok_spec (hpt i i.isLt h2i)
    obtain ⟨_, _, _, _, _, hpj, _⟩ := onewayRow_ok_spec (hpt j j.isLt h2j)
    rw [hpi, hpj]
    have hs := (List.pairwise_iff_get.mp (search_sorted store q 100)) ⟨i, h2i⟩ ⟨j, h2j⟩ hij
    exact round2_int_div100_mono hs

/-- A two-record oneway sample: both records match, prices ascending, no
previous-day snapshots in the store. -/
def sampleOnewayStore : List FareRecord :=
  [⟨"AAA", "LPA", "20250310", "20250302", "oneway", "", some 5000⟩,
   ⟨"BBB", "LPA", "20250311", "20250302", "oneway", "", some 7000⟩]

def sampleOnewayQuery : BoolQuery :=
  ⟨[Clause.term .destination "LPA", Clause.term .ftype "oneway"], []⟩

def okD {α : Type} (e : Except Unit α) (d : α) : α :=
  match e with
  | .ok a => a
  | .error _ => d

def sampleOnewayRows : List FlightSearch.OnewayRow :=
  okD (FlightSearch.get_oneway_results sampleOnewayStore sampleOnewayQuery) []

/-- Witness for C7 on the two-record sample store. -/
theorem c7_witness :
    sampleOnewayRows.length ≤ 100 ∧
    sampleOnewayRows.length
      = (FlightSearch.search_elasticsearch sampleOnewayStore sampleOnewayQuery 100).length ∧
    List.Sorted (fun a b : FlightSearch.OnewayRow => a.price ≤ b.price) sampleOnewayRows := by
  have hmain := c7_oneway_order_and_cap sampleOnewayStore sampleOnewayQuery sampleOnewayRows rfl
  exact ⟨hmain.1, hmain.2.1, hmain.2.2.2⟩

/-- Claim C6: per oneway row, when a record for the same itinerary with the
computed previous-day snapshot key exists in the store, the delta is
`round((current - previous) / 100, 2)`; when the key computation failed or no
such record exists, the delta is the `N/A` sentinel, and every retrieved row
still produces an output row (the run formats all of them). -/
theorem c6_delta_found_or_na (store : List FareRecord) (q : BoolQuery)
    (rows : List FlightSearch.OnewayRow)
    (h : FlightSearch.get_oneway_results store q = .ok rows) :
    rows.length = (FlightSearch.search_elasticsearch store q 100).length ∧
    ∀ i (h1 : i < rows.length) (h2 : i < (FlightSearch.search_elasticsearch store q 100).length),
      (prevDayKey ((FlightSearch.search_elasticsearch store q 100).get ⟨i, h2⟩).date_retrieved = none →
        (rows.get ⟨i, h1⟩).price_change_vs_previous_day = .na) ∧
      (∀ k, prevDayKey ((FlightSearch.search_elasticsearch store q 100).get ⟨i, h2⟩).date_retrieved = some k →
        ((store.filter (prevMatch
            ((FlightSearch.search_elasticsearch store q 100).get ⟨i, h2⟩).origin
            ((FlightSearch.search_elasticsearch store q 100).get ⟨i, h2⟩).destination
            ((FlightSearch.search_elasticsearch store q 100).get ⟨i, h2⟩).date
            ((FlightSearch.search_elasticsearch store q 100).get ⟨i, h2⟩).ftype k)).head? = none →
          (rows.get ⟨i, h1⟩).price_change_vs_previous_day = .na) ∧
        (∀ hit p, (store.filter (prevMatch
            ((FlightSearch.search_elasticsearch store q 100).get ⟨i, h2⟩).origin
            ((FlightSearch.search_elasticsearch store q 100).get ⟨i, h2⟩).destination
            ((FlightSearch.search_elasticsearch store q 100).get ⟨i, h2⟩).date
            ((FlightSearch.search_elasticsearch store q 100).get ⟨i, h2⟩).ftype k)).head? = some hit →
          hit.price = some p →
          (rows.get ⟨i, h1⟩).price_change_vs_previous_day =
            .val (round2 (((((FlightSearch.search_elasticsearch store q 100).get ⟨i, h2⟩).price.getD 0 - p : ℤ) : ℚ) / 100)))) := by
  unfold FlightSearch.get_oneway_results at h
  obtain ⟨hlen, hpt⟩ := onewayAux_ok_spec h
  refine ⟨hlen, ?_⟩
  intro i h1 h2
  obtain ⟨_, _, _, _, _, _, hna, hlook⟩ := onewayRow_ok_spec (hpt i h1 h2)
  refine ⟨hna, ?_⟩
  intro k hk
  obtain ⟨hnone, hsome⟩ := hlook k hk
  refine ⟨?_, ?_⟩
  · intro hhead
    apply hnone
    rw [get_previous_day_price_spec, hhead]
  · intro hit p hhead hp
    apply hsome
    simp only [get_previous_day_price_spec, hhead, hp]

/-- A oneway sample with a previous-day snapshot: current price 15000 on
`20250302`, previous price 14000 on `20250301`, delta 10.00. -/
def sampleDeltaStore : List FareRecord :=
  [⟨"AAA", "BBB", "20250310", "20250302", "oneway", "", some 15000⟩,
   ⟨"AAA", "BBB", "20250310", "20250301", "oneway", "", some 14000⟩]

def sampleDeltaQuery : BoolQuery :=
  ⟨[Clause.term .destination "BBB", Clause.term .ftype "oneway",
    Clause.term .date_retrieved "20250302"], []⟩

def sampleDeltaRows : List FlightSearch.OnewayRow :=
  okD (FlightSearch.get_oneway_results sampleDeltaStore sampleDeltaQuery) []

/-- Witness for C6: the sample's single row carries the found-case delta. -/
theorem c6_witness :
    (0 : Nat) < sampleDeltaRows.length ∧
    ∀ h1 : (0 : Nat) < sampleDeltaRows.length,
      (sampleDeltaRows.get ⟨0, h1⟩).price_change_vs_previous_day =
        .val (round2 (((15000 - 14000 : ℤ) : ℚ) / 100)) := by
  have hmain := c6_delta_found_or_na sampleDeltaStore sampleDeltaQuery sampleDeltaRows rfl
  refine ⟨by rw [hmain.1]; decide, ?_⟩
  intro h1
  exact (((hmain.2 0 h1 (by decide)).2 "20250301" rfl).2
    ⟨"AAA", "BBB", "20250310", "20250301", "oneway", "", some 14000⟩ 14000 rfl rfl)

/-- Claim C10: a retrieved record with no price field is still formatted (no
error): its raw price defaults to 0, the row's displayed price is 0, and a
found previous-day delta is computed against that 0. -/
theorem c10_missing_price_defaults (store : List FareRecord) (q : BoolQuery)
    (rows : List FlightSearch.OnewayRow)
    (h : FlightSearch.get_oneway_results store q = .ok rows) :
    ∀ i (h1 : i < rows.length) (h2 : i < (FlightSearch.search_elasticsearch store q 100).length),
      ((FlightSearch.search_elasticsearch store q 100).get ⟨i, h2⟩).price = none →
      (rows.get ⟨i, h1⟩).price = 0 ∧
      (∀ k hit p,
        prevDayKey ((FlightSearch.search_elasticsearch store q 100).get ⟨i, h2⟩).date_retrieved = some k →
        (store.filter (prevMatch
            ((FlightSearch.search_elasticsearch store q 100).get ⟨i, h2⟩).origin
            ((FlightSearch.search_elasticsearch store q 100).get ⟨i, h2⟩).destination
            ((FlightSearch.search_elasticsearch store q 100).get ⟨i, h2⟩).date
            ((FlightSearch.search_elasticsearch store q 100).get ⟨i, h2⟩).ftype k)).head? = some hit →
        hit.price = some p →
        (rows.get ⟨i, h1⟩).price_change_vs_previous_day =
          .val (round2 (((0 - p : ℤ) : ℚ) / 100))) := by
  unfold FlightSearch.get_oneway_results at h
  obtain ⟨hlen, hpt⟩ := onewayAux_ok_spec h
  intro i h1 h2 hmissing
  obtain ⟨_, _, _, _, _, hprice, _, hlook⟩ := onewayRow_ok_spec (hpt i h1 h2)
  constructor
  · rw [hprice, hmissing]
    show round2 (((0 : ℤ) : ℚ) / 100) = 0
    rw [round2_int_div100]
    simp
  · intro k hit p hk hhead hp
    have hval := (hlook k hk).2 p
      (by simp only [get_previous_day_price_spec, hhead, hp])
    rw [hmissing] at hval
    exact hval

/-- A oneway sample whose current record has no price field; the store also
holds a previous-day snapshot priced 500. -/
def sampleMissingStore : List FareRecord :=
  [⟨"AAA", "BBB", "20250310", "20250302", "oneway", "", none⟩,
   ⟨"AAA", "BBB", "20250310", "20250301", "oneway", "", some 500⟩]

def sampleMissingQuery : BoolQuery :=
  ⟨[Clause.term .destination "BBB", Clause.term .ftype "oneway",
    Clause.term .date_retrieved "20250302"], []⟩

def sampleMissingRows : List FlightSearch.OnewayRow :=
  okD (FlightSearch.get_oneway_results sampleMissingStore sampleMissingQuery) []

/-- Witness for C10: the priceless record yields a row priced 0 whose delta
is computed against raw price 0. -/
theorem c10_witness :
    (sampleMissingRows.get ⟨0, by decide⟩).price = 0 ∧
    (sampleMissingRows.get ⟨0, by decide⟩).price_change_vs_previous_day =
      .val (round2 (((0 - 500 : ℤ) : ℚ) / 100)) := by
  have hmain := c10_missing_price_defaults sampleMissingStore sampleMissingQuery
    sampleMissingRows rfl 0 (by decide) (by decide) rfl
  exact ⟨hmain.1, hmain.2 "20250301"
    ⟨"AAA", "BBB", "20250310", "20250301", "oneway", "", some 500⟩ 500 rfl rfl rfl⟩

/-! ## Helper lemmas for the round-trip pairing -/

theorem get_roundtrip_fst (store : List FareRecord) (q : BoolQuery) :
    (FlightSearch.get_roundtrip_results store q).1 =
      match FlightSearch.formPairsAux (FlightSearch.allPairs
        (FlightSearch.search_elasticsearch store
          ⟨q.must ++ [Clause.term .direction "forth"], q.must_not⟩ 1000)
        (FlightSearch.search_elasticsearch store
          ⟨q.must ++ [Clause.term .direction "back"], q.must_not⟩ 1000)) with
      | .error e => .error e
      | .ok pairs => .ok ((List.insertionSort FlightSearch.totalPriceLe pairs).take 100) :=
  rfl

theorem formPairsAux_ok_mem {l : List (FareRecord × FareRecord)}
    {rows : List FlightSearch.PairRow}
    (h : FlightSearch.formPairsAux l = .ok rows) :
    ∀ row ∈ rows, ∃ fb ∈ l, FlightSearch.pairOf fb.1 fb.2 = .ok (some row) := by
  induction l generalizing rows with
  | nil =>
    simp only [FlightSearch.formPairsAux] at h
    cases h
    intro row hrow
    cases hrow
  | cons fb rest ih =>
    simp only [FlightSearch.formPairsAux] at h
    cases hp : FlightSearch.pairOf fb.1 fb.2 with
    | error e => rw [hp] at h; cases h
    | ok o =>
      rw [hp] at h
      cases o with
      | none =>
        intro row hrow
        obtain ⟨fb2, hfb2, hpo⟩ := ih h row hrow
        exact ⟨fb2, List.mem_cons_of_mem _ hfb2, hpo⟩
      | some r0 =>
        cases haux : FlightSearch.formPairsAux rest with
        | error e => rw [haux] at h; cases h
        | ok rs =>
          rw [haux] at h
          simp only [Except.map] at h
          cases h
          intro row hrow
          rcases List.mem_cons.mp hrow with hre | hrm
          · exact ⟨fb, List.mem_cons_self _ _, by rw [hp, hre]⟩
          · obtain ⟨fb2, hfb2, hpo⟩ := ih haux row hrm
            exact ⟨fb2, List.mem_cons_of_mem _ hfb2, hpo⟩

theorem mem_allPairs {set1 set2 : List FareRecord} {fb : FareRecord × FareRecord}
    (h : fb ∈ FlightSearch.allPairs set1 set2) : fb.1 ∈ set1 ∧ fb.2 ∈ set2 := by
  unfold FlightSearch.allPairs at h
  rw [List.mem_flatMap] at h
  obtain ⟨f, hf, hmem⟩ := h
  rw [List.mem_map] at hmem
  obtain ⟨b, hb, rfl⟩ := hmem
  exact ⟨hf, hb⟩

theorem pairOf_ok_some {f b : FareRecord} {row : FlightSearch.PairRow}
    (h : FlightSearch.pairOf f b = .ok (some row)) :
    f.origin = b.origin ∧ f.destination = b.destination ∧
    ∃ fd bd, ∃ fp bp : ℤ, parseYMD f.date = some fd ∧ parseYMD b.date = some bd ∧
      dateLtB fd bd = true ∧ f.price = some fp ∧ b.price = some bp ∧
      row = { origin := f.origin, destination := f.destination,
              forth_date := f.date, back_date := b.date,
              forth_price := round2 ((fp : ℚ) / 100),
              back_price := round2 ((bp : ℚ) / 100),
              total_price := round2 (((fp + bp : ℤ) : ℚ) / 100) } := by
  unfold FlightSearch.pairOf at h
  split at h
  case isFalse => cases h
  case isTrue hcond =>
    simp only [Bool.and_eq_true, beq_iff_eq] at hcond
    split at h
    case h_2 => cases h
    case h_1 fd bd hfd hbd =>
      split at h
      case isFalse => cases h
      case isTrue hlt =>
        split at h
        case h_2 => cases h
        case h_1 fp bp hfp hbp =>
          simp only [Except.ok.injEq, Option.some.injEq] at h
          subst h
          exact ⟨hcond.1, hcond.2, fd, bd, fp, bp, hfd, hbd, hlt, hfp, hbp, rfl⟩

theorem roundtrip_ok_spec {store : List FareRecord} {q : BoolQuery}
    {rows : List FlightSearch.PairRow}
    (h : (FlightSearch.get_roundtrip_results store q).1 = .ok rows) :
    ∃ pairs, FlightSearch.formPairsAux (FlightSearch.allPairs
      (FlightSearch.search_elasticsearch store
        ⟨q.must ++ [Clause.term .direction "forth"], q.must_not⟩ 1000)
      (FlightSearch.search_elasticsearch store
        ⟨q.must ++ [Clause.term .direction "back"], q.must_not⟩ 1000)) = .ok pairs ∧
      rows = (List.insertionSort FlightSearch.totalPriceLe pairs).take 100 := by
  rw [get_roundtrip_fst] at h
  cases hfp : FlightSearch.formPairsAux (FlightSearch.allPairs
      (FlightSearch.search_elasticsearch store
        ⟨q.must ++ [Clause.term .direction "forth"], q.must_not⟩ 1000)
      (FlightSearch.search_elasticsearch store
        ⟨q.must ++ [Clause.term .direction "back"], q.must_not⟩ 1000)) with
  | error e => rw [hfp] at h; cases h
  | ok pairs =>
    rw [hfp] at h
    cases h
    exact ⟨pairs, rfl, rfl⟩

/-- Claim C3: round-trip output is sorted non-decreasing by `total_price`,
capped at 100 rows, and every row comes from a forth/back pair with equal
origin and destination whose back date, parsed as a calendar date, is
strictly later than the forth date. -/
theorem c3_roundtrip_sorted_capped_joined (store : List FareRecord) (q : BoolQuery)
    (rows : List FlightSearch.PairRow)
    (h : (FlightSearch.get_roundtrip_results store q).1 = .ok rows) :
    List.Sorted FlightSearch.totalPriceLe rows ∧
    rows.length ≤ 100 ∧
    ∀ row ∈ rows, ∃ f b,
      f ∈ FlightSearch.search_elasticsearch store
        ⟨q.must ++ [Clause.term .direction "forth"], q.must_not⟩ 1000 ∧
      b ∈ FlightSearch.search_elasticsearch store
        ⟨q.must ++ [Clause.term .direction "back"], q.must_not⟩ 1000 ∧
      f.origin = b.origin ∧ f.destination = b.destination ∧
      row.origin = f.origin ∧ row.destination = f.destination ∧
      row.forth_date = f.date ∧ row.back_date = b.date ∧
      ∃ fd bd, parseYMD f.date = some fd ∧ parseYMD b.date = some bd ∧
        dateLtB fd bd = true := by
  obtain ⟨pairs, hfp, hrows⟩ := roundtrip_ok_spec h
  refine ⟨?_, ?_, ?_⟩
  · rw [hrows]
    exact List.Pairwise.sublist (List.take_sublist _ _) (List.sorted_insertionSort _ _)
  · rw [hrows]
    exact List.length_take_le _ _
  · intro row hrow
    rw [hrows] at hrow
    have hrow2 := List.mem_of_mem_take hrow
    have hrow3 := (List.perm_insertionSort FlightSearch.totalPriceLe pairs).mem_iff.mp hrow2
    obtain ⟨fb, hfb, hpo⟩ := formPairsAux_ok_mem hfp row hrow3
    obtain ⟨hmem1, hmem2⟩ := mem_allPairs hfb
    obtain ⟨ho, hd, fd, bd, fp, bp, hfd, hbd, hlt, _, _, hroweq⟩ := pairOf_ok_some hpo
    exact ⟨fb.1, fb.2, hmem1, hmem2, ho, hd, by rw [hroweq], by rw [hroweq],
      by rw [hroweq], by rw [hroweq], fd, bd, hfd, hbd, hlt⟩

/-- Claim C4: each round-trip row's `total_price` is `round((fp + bp)/100, 2)`
for the pair's minor-unit prices `fp`, `bp` — the integers are summed before
the single division-and-rounding step that produces the decimal. -/
theorem c4_total_price_summed_before_rounding (store : List FareRecord) (q : BoolQuery)
    (rows : List FlightSearch.PairRow)
    (h : (FlightSearch.get_roundtrip_results store q).1 = .ok rows) :
    ∀ row ∈ rows, ∃ f b, ∃ fp bp : ℤ,
      f ∈ FlightSearch.search_elasticsearch store
        ⟨q.must ++ [Clause.term .direction "forth"], q.must_not⟩ 1000 ∧
      b ∈ FlightSearch.search_elasticsearch store
        ⟨q.must ++ [Clause.term .direction "back"], q.must_not⟩ 1000 ∧
      f.price = some fp ∧ b.price = some bp ∧
      row.forth_price = round2 ((fp : ℚ) / 100) ∧
      row.back_price = round2 ((bp : ℚ) / 100) ∧
      row.total_price = round2 (((fp + bp : ℤ) : ℚ) / 100) := by
  obtain ⟨pairs, hfp, hrows⟩ := roundtrip_ok_spec h
  intro row hrow
  rw [hrows] at hrow
  have hrow2 := List.mem_of_mem_take hrow
  have hrow3 := (List.perm_insertionSort FlightSearch.totalPriceLe pairs).mem_iff.mp hrow2
  obtain ⟨fb, hfb, hpo⟩ := formPairsAux_ok_mem hfp row hrow3
  obtain ⟨hmem1, hmem2⟩ := mem_allPairs hfb
  obtain ⟨_, _, fd, bd, fp, bp, _, _, _, hfp2, hbp2, hroweq⟩ := pairOf_ok_some hpo
  exact ⟨fb.1, fb.2, fp, bp, hmem1, hmem2, hfp2, hbp2, by rw [hroweq], by rw [hroweq],
    by rw [hroweq]⟩

/-- The spec's round-trip fixture: one forth record (10000) and one back
record (12000) for the same itinerary, back seven days after forth. -/
def sampleRTStore : List FareRecord :=
  [⟨"AAA", "BBB", "20250310", "20250309", "roundtrip", "forth", some 10000⟩,
   ⟨"AAA", "BBB", "20250317", "20250309", "roundtrip", "back", some 12000⟩]

def sampleRTQuery : BoolQuery :=
  ⟨[Clause.term .destination "BBB", Clause.term .ftype "roundtrip"], []⟩

def sampleRTRows : List FlightSearch.PairRow :=
  okD (FlightSearch.get_roundtrip_results sampleRTStore sampleRTQuery).1 []

/-- Witness for C3 on the fixture store. -/
theorem c3_witness :
    List.Sorted FlightSearch.totalPriceLe sampleRTRows ∧
    sampleRTRows.length ≤ 100 ∧ sampleRTRows.length = 1 := by
  have hmain := c3_roundtrip_sorted_capped_joined sampleRTStore sampleRTQuery sampleRTRows rfl
  exact ⟨hmain.1, hmain.2.1, rfl⟩

/-- The fixture's single output row. -/
def sampleRTRow : FlightSearch.PairRow :=
  sampleRTRows.headD ⟨"", "", "", "", 0, 0, 0⟩

/-- Witness for C4 at the fixture's concrete output row. -/
theorem c4_witness :
    ∃ f b, ∃ fp bp : ℤ,
      f ∈ FlightSearch.search_elasticsearch sampleRTStore
        ⟨sampleRTQuery.must ++ [Clause.term .direction "forth"], sampleRTQuery.must_not⟩ 1000 ∧
      b ∈ FlightSearch.search_elasticsearch sampleRTStore
        ⟨sampleRTQuery.must ++ [Clause.term .direction "back"], sampleRTQuery.must_not⟩ 1000 ∧
      f.price = some fp ∧ b.price = some bp ∧
      sampleRTRow.forth_price = round2 ((fp : ℚ) / 100) ∧
      sampleRTRow.back_price = round2 ((bp : ℚ) / 100) ∧
      sampleRTRow.total_price = round2 (((fp + bp : ℤ) : ℚ) / 100) := by
  have hmem : sampleRTRow ∈ sampleRTRows := by
    have hcons : sampleRTRows = sampleRTRow :: sampleRTRows.tail := rfl
    rw [hcons]
    exact List.mem_cons_self _ _
  exact c4_total_price_summed_before_rounding sampleRTStore sampleRTQuery sampleRTRows rfl
    sampleRTRow hmem
